import Mathlib

/-!
Shallow embedding of the incident-reporting backend
(`backend/routes/incidents.js`, `backend/services/aiService.js`,
`backend/models/Issue.js`, `backend/models/RoutingRule.js`).

Statuses, categories and severities are strings in the source (Mongoose
string enums), so they are strings here.  Numeric scores and similarities
are modelled over `ℚ`; all arithmetic the claims mention (+0.25, 0.75,
0.45, clamping) is exact at these values.
-/

namespace Reporting

/-- One entry of an incident's `statusHistory` array
(`backend/models/Issue.js`, `statusHistory` subdocument). -/
structure HistoryEntry where
  fromStatus : Option String
  toStatus : String
  changedBy : String
  changedByName : Option String
  note : Option String
deriving DecidableEq, Repr

/-- One entry of an incident's `activity` array
(`backend/models/Issue.js`, `activity` subdocument); the timestamp and
`meta` payload are not modelled. -/
structure ActivityEntry where
  type : String
  message : String
  byUser : String
  byName : Option String
deriving DecidableEq, Repr

/-- The incident document (`backend/models/Issue.js`), restricted to the
fields the route handlers under verification read or write. -/
structure Incident where
  title : String
  description : String
  category : String
  severity : String
  status : String
  reportedBy : String
  reporterName : Option String
  assignedTo : Option String
  assigneeName : Option String
  assignedTeam : Option String
  statusHistory : List HistoryEntry
  activity : List ActivityEntry
  watchers : List String
deriving DecidableEq, Repr

/-- The transition table of `PATCH /incidents/:id/status`
(`incidents.js` line 229):
`const valid = { Open: ['Investigating'], Investigating: ['Resolved'], Resolved: [] }`.
`none` models the JS `undefined` produced by indexing with any other key. -/
def validNext (s : String) : Option (List String) :=
  if s = "Open" then some ["Investigating"]
  else if s = "Investigating" then some ["Resolved"]
  else if s = "Resolved" then some []
  else none

/-- The mutation performed by the accepted path of
`PATCH /incidents/:id/status` (`incidents.js` lines 236-248): push a
history entry recording (from, to), set the status, push an activity
entry. -/
def applyStatusChange (userId : String) (userName : Option String)
    (status : String) (note : Option String) (incident : Incident) : Incident :=
  { incident with
    statusHistory := incident.statusHistory ++
      [{ fromStatus := some incident.status, toStatus := status,
         changedBy := userId, changedByName := userName, note := note }],
    status := status,
    activity := incident.activity ++
      [{ type := "status", message := "Status changed to " ++ status,
         byUser := userId, byName := userName }] }

/-- `PATCH /incidents/:id/status` (`incidents.js` lines 222-260) on a
found incident: when the requested status differs from the current one it
is validated against `validNext`; on rejection the handler returns
HTTP 400 with message `Invalid status transition`; otherwise (including
the case of an unchanged status, which skips validation) the mutation of
`applyStatusChange` is performed and the handler returns the incident. -/
def patchStatus (userId : String) (userName : Option String)
    (status : String) (note : Option String) (incident : Incident) :
    Except (Nat × String) Incident :=
  if incident.status ≠ status then
    match validNext incident.status with
    | none => .error (400, "Invalid status transition")
    | some nexts =>
      if status ∈ nexts then
        .ok (applyStatusChange userId userName status note incident)
      else .error (400, "Invalid status transition")
  else .ok (applyStatusChange userId userName status note incident)

/-- The acceptance condition of the transition table, as the spec states
it: a no-op, or one of the two allowed edges. -/
def acceptedPair (cur req : String) : Prop :=
  req = cur ∨ (cur = "Open" ∧ req = "Investigating") ∨
    (cur = "Investigating" ∧ req = "Resolved")

instance (cur req : String) : Decidable (acceptedPair cur req) := by
  unfold acceptedPair; infer_instance

/-- The final `statusHistory` entry's `toStatus`, if any. -/
def lastToStatus (incident : Incident) : Option String :=
  incident.statusHistory.getLast?.map (·.toStatus)

/-- Boolean prefix test on character lists (helper for modelling
JavaScript `String.prototype.includes`). -/
def chPrefix : List Char → List Char → Bool
  | [], _ => true
  | _ :: _, [] => false
  | n :: ns, h :: hs => n = h && chPrefix ns hs

/-- Boolean substring test on character lists. -/
def chContains (needle : List Char) : List Char → Bool
  | [] => chPrefix needle []
  | h :: hs => chPrefix needle (h :: hs) || chContains needle hs

/-- JavaScript `hay.includes(needle)` on strings. -/
def strIncludes (hay needle : String) : Bool := chContains needle.data hay.data

/-- JavaScript `s.toLowerCase()` (ASCII-faithful). -/
def lowerStr (s : String) : String := ⟨s.data.map Char.toLower⟩

/-- JavaScript `s.charAt(0).toUpperCase() + s.slice(1).toLowerCase()`
(`incidents.js` line 95). -/
def capitalizeJs (s : String) : String :=
  match s.data with
  | [] => ""
  | c :: cs => ⟨Char.toUpper c :: cs.map Char.toLower⟩

/-- The incident schema's severity enum (`models/Issue.js`). -/
def validSeverities : List String := ["Low", "Medium", "High", "Critical"]

/-- The incident schema's category enum (`models/Issue.js`). -/
def validCategories : List String := ["IT", "HR", "Facility"]

/-- `normalizeSeverity` from `incidents.js` lines 93-98.  The argument is
`Option String` because the JS value may be `undefined`; the `!severity`
guard also treats the empty string as missing. -/
def normalizeSeverity (severity : Option String) : String :=
  match severity with
  | none => "Low"
  | some s =>
    if s = "" then "Low"
    else
      let normalized := capitalizeJs s
      if normalized ∈ validSeverities then normalized else "Low"

/-- `normalizeCategory` from `incidents.js` lines 100-104. -/
def normalizeCategory (category : Option String) : String :=
  match category with
  | none => "IT"
  | some c => if c = "" then "IT" else if c ∈ validCategories then c else "IT"

/-- JavaScript `a || b` on two possibly-undefined strings (the empty
string is falsy). -/
def jsOrStr (a b : Option String) : Option String :=
  match a with
  | some s => if s = "" then b else some s
  | none => b

/-- A routing rule document (`models/RoutingRule.js`). -/
structure RoutingRule where
  category : String
  assignedTeam : String
  assignedTo : Option String
  priority : Int
  active : Bool
deriving DecidableEq, Repr

/-- The creation-time routing lookup
`RoutingRule.findOne({ category: incident.category })`
(`incidents.js` line 141): the first stored rule whose category matches;
note the query has no `active` condition. -/
def findRule (rules : List RoutingRule) (category : String) : Option RoutingRule :=
  rules.find? (fun r => r.category == category)

/-- Denormalized-name lookup `User.findById(id)?.name` against the user
collection, modelled as an id→name association list. -/
def lookupName (users : List (String × String)) (userId : String) : Option String :=
  (users.find? (fun u => u.1 == userId)).map (·.2)

/-- The triage bundle the POST handler builds from
`aiService.predictTriage` (`incidents.js` lines 46-55).  When the whole
AI block throws, the handler keeps the empty object `{}`, modelled by
`emptyTriage`. -/
structure TriageData where
  predictedCategory : Option String
  predictedSeverity : Option String
  categoryConfidence : ℚ
  severityConfidence : ℚ
  assignedTeam : Option String
  confidence : ℚ
  aiPowered : Bool
deriving DecidableEq, Repr

/-- `aiTriageData = {}`: every field read yields `undefined`/falsy. -/
def emptyTriage : TriageData :=
  { predictedCategory := none, predictedSeverity := none,
    categoryConfidence := 0, severityConfidence := 0,
    assignedTeam := none, confidence := 0, aiPowered := false }

/-- The per-category keyword lists of `AIService._classifyFallback`
(`aiService.js` lines 686-692), in object-insertion order. -/
def categoryKeywordTable : List (String × List String) :=
  [("infrastructure",
    ["server", "downtime", "network", "connectivity", "hardware",
     "deployment", "dns", "load balancer"]),
   ("application",
    ["crash", "bug", "error", "app", "feature", "performance", "slow",
     "ui", "frontend", "backend"]),
   ("security",
    ["breach", "vulnerability", "attack", "unauthorized", "access",
     "exploit", "injection", "malware", "phishing"]),
   ("database",
    ["database", "data", "sql", "query", "backup", "recovery",
     "corruption", "mongo", "postgres"])]

/-- Number of keywords of `kws` occurring in the lowercased text. -/
def keywordMatches (textLower : String) (kws : List String) : Nat :=
  (kws.filter (fun kw => strIncludes textLower kw)).length

/-- `AIService._classifyFallback` (`aiService.js` lines 686-710):
first category with a strictly higher keyword-match count wins, starting
from `('other', 0)`; confidence is `min(0.5 + matches*0.1, 0.9)`. -/
def classifyFallback (text : String) : String × ℚ :=
  let textLower := lowerStr text
  let best := categoryKeywordTable.foldl
    (fun (acc : String × Nat) entry =>
      let hits := keywordMatches textLower entry.2
      if acc.2 < hits then (entry.1, hits) else acc)
    ("other", 0)
  (best.1, min (1/2 + (best.2 : ℚ) * (1/10)) (9/10))

/-- `AIService._classifySeverityFallback` (`aiService.js` lines 715-730). -/
def severityFallback (text : String) : String × ℚ :=
  let t := lowerStr text
  if ["outage", "breach", "down", "critical", "urgent", "emergency",
      "hacked"].any (fun kw => strIncludes t kw) then ("critical", 4/5)
  else if ["error", "crash", "vulnerability", "failure", "timeout",
      "broken"].any (fun kw => strIncludes t kw) then ("high", 3/4)
  else if ["slow", "issue", "problem", "bug", "delay",
      "intermittent"].any (fun kw => strIncludes t kw) then ("medium", 7/10)
  else ("low", 13/20)

/-- `AIService._routeToTeam` (`aiService.js` lines 543-552):
`routing[category] || 'Support'`. -/
def routeToTeam (category : String) : String :=
  if category = "infrastructure" then "DevOps"
  else if category = "application" then "Development"
  else if category = "security" then "Security"
  else if category = "database" then "Database"
  else "Support"

/-- `AIService.predictTriage` (`aiService.js` lines 230-256) in the state
where the external inference API is unreachable, so both zero-shot calls
fall back to the keyword heuristics.  Note the source returns
`aiPowered: true` unconditionally (line 254); `optimalAssigneeId` is
unused by the POST handler and not modelled. -/
def predictTriageFallback (title description : String) : TriageData :=
  let text := title ++ ". " ++ description
  let c := classifyFallback text
  let s := severityFallback text
  { predictedCategory := some c.1, predictedSeverity := some s.1,
    categoryConfidence := c.2, severityConfidence := s.2,
    assignedTeam := some (routeToTeam c.1),
    confidence := (c.2 + s.2) / 2,
    aiPowered := true }

/-- The incident constructed and saved by `POST /incidents`
(`incidents.js` lines 122-179): normalized category/severity (AI
prediction first, `||` user input), routing-rule application, then the
synthetic creation `statusHistory` entry and `created` activity entry.
In the no-rule branch the source reads
`aiTriageData.assignedTeam || triageResult?.assignedTeam`; the second
disjunct references an out-of-scope binding and throws, and the
surrounding `try` swallows the error, so only a truthy
`aiTriageData.assignedTeam` ever assigns the fallback team. -/
def createIncident (userId : String) (reporterName : Option String)
    (title description : String) (category severity : Option String)
    (ai : TriageData) (rules : List RoutingRule)
    (users : List (String × String)) : Incident :=
  let base : Incident :=
    { title := title, description := description,
      category := normalizeCategory (jsOrStr ai.predictedCategory category),
      severity := normalizeSeverity (jsOrStr ai.predictedSeverity severity),
      status := "Open", reportedBy := userId, reporterName := reporterName,
      assignedTo := none, assigneeName := none, assignedTeam := none,
      statusHistory := [], activity := [], watchers := [] }
  let routed :=
    match findRule rules base.category with
    | some rule =>
      let withTeam := { base with assignedTeam := some rule.assignedTeam }
      match rule.assignedTo with
      | some uid =>
        { withTeam with assignedTo := some uid,
                        assigneeName := lookupName users uid }
      | none => withTeam
    | none =>
      match ai.assignedTeam with
      | some t => if t = "" then base else { base with assignedTeam := some t }
      | none => base
  { routed with
    statusHistory := [{ fromStatus := none, toStatus := routed.status,
                        changedBy := userId, changedByName := reporterName,
                        note := some "Created" }],
    activity := [{ type := "created", message := "Incident created",
                   byUser := userId, byName := reporterName }] }

/-- The successful response of `POST /incidents` (`incidents.js`
lines 188-196): HTTP 201, the saved incident, and `aiInsights.triage`
(the `aiTriageData` bundle). -/
structure CreateResponse where
  statusCode : Nat
  incident : Incident
  triage : TriageData
deriving DecidableEq, Repr

/-- `POST /incidents` success path. -/
def postIncident (userId : String) (reporterName : Option String)
    (title description : String) (category severity : Option String)
    (ai : TriageData) (rules : List RoutingRule)
    (users : List (String × String)) : CreateResponse :=
  { statusCode := 201,
    incident := createIncident userId reporterName title description
      category severity ai rules users,
    triage := ai }

/-- The activity entry pushed by `POST /incidents/:id/watch`
(`incidents.js` line 343). -/
def watchActivity (userId : String) (userName : Option String) : ActivityEntry :=
  { type := "watch",
    message := (userName.getD "undefined") ++ " is watching",
    byUser := userId, byName := userName }

/-- `POST /incidents/:id/watch` (`incidents.js` lines 333-350) on a found
incident: the caller is added to `watchers` only when not already
present, but the activity entry is pushed unconditionally. -/
def watchIncident (userId : String) (userName : Option String)
    (incident : Incident) : Incident :=
  let withWatcher :=
    if userId ∈ incident.watchers then incident
    else { incident with watchers := incident.watchers ++ [userId] }
  { withWatcher with activity := withWatcher.activity ++ [watchActivity userId userName] }

/-- The access check of `GET /incidents/:id` (`incidents.js` line 460):
`userRole !== 'admin' && incident.reportedBy.toString() !== userId &&
incident.assignedTo && incident.assignedTo.toString() !== userId`.
A missing `assignedTo` makes the third conjunct falsy. -/
def getIncidentForbidden (role userId : String) (incident : Incident) : Bool :=
  role != "admin" && incident.reportedBy != userId &&
    (match incident.assignedTo with
     | some a => a != userId
     | none => false)

/-- `GET /incidents/:id` (`incidents.js` lines 452-467) on a found
incident: 403 when the access check trips, 200 otherwise. -/
def getIncidentCode (role userId : String) (incident : Incident) : Nat :=
  if getIncidentForbidden role userId incident then 403 else 200

/-- One entry of `findDuplicates`' result list (`aiService.js`
lines 297-307), restricted to identity and the stored rounded
similarity. -/
structure DupCandidate where
  issueId : String
  similarity : ℚ
deriving DecidableEq, Repr

/-- The result of `AIService.findDuplicates` (`aiService.js`
lines 314-321). -/
structure DupResult where
  hasDuplicates : Bool
  duplicates : List DupCandidate
  recommendation : Option String
deriving DecidableEq, Repr

/-- JavaScript `Math.round(x * 100) / 100` (round half up). -/
def roundSim (q : ℚ) : ℚ := (⌊q * 100 + 1/2⌋ : ℚ) / 100

/-- Stable insertion into a similarity-descending list, modelling the
comparator `(a, b) => b.similarity - a.similarity` under the stable
JavaScript `Array.prototype.sort`. -/
def insertDesc (c : DupCandidate) : List DupCandidate → List DupCandidate
  | [] => [c]
  | d :: ds => if d.similarity < c.similarity then c :: d :: ds else d :: insertDesc c ds

/-- Stable similarity-descending sort. -/
def sortDesc : List DupCandidate → List DupCandidate
  | [] => []
  | c :: cs => insertDesc c (sortDesc cs)

/-- A duplicate list is sorted descending by similarity. -/
def SortedDesc (l : List DupCandidate) : Prop :=
  l.Pairwise (fun a b => b.similarity ≤ a.similarity)

/-- `AIService.findDuplicates` (`aiService.js` lines 262-322).  The
embedding generation and cosine computation against each open or
investigating incident are external-API/float work; the function is
embedded from the point where each candidate incident has its raw cosine
similarity, as the list `candidates` of (issue id, similarity) pairs in
collection order.  Candidates at or above the threshold are kept with the
rounded similarity, sorted descending, and cut to the top 3. -/
def findDuplicates (candidates : List (String × ℚ)) (similarityThreshold : ℚ) : DupResult :=
  let duplicates := (candidates.filter (fun c => similarityThreshold ≤ c.2)).map
    (fun c => ({ issueId := c.1, similarity := roundSim c.2 } : DupCandidate))
  let top := (sortDesc duplicates).take 3
  { hasDuplicates := decide (top ≠ []),
    duplicates := top,
    recommendation :=
      if top ≠ [] then
        some ("AI found " ++ toString top.length ++
          " similar issue(s). Please review before submitting.")
      else none }

/-- A recent incident as read by `AIService.detectAnomalies`
(`aiService.js` line 396-398): its severity and its title/description
texts (used only for word counts and the severity statistics). -/
structure RecentIssue where
  severity : String
  title : String
  description : String
deriving DecidableEq, Repr

/-- `severityMap[sev?.toLowerCase()] || 2` (`aiService.js` lines 404-409). -/
def severityRank (sev : String) : ℚ :=
  if lowerStr sev = "low" then 1
  else if lowerStr sev = "medium" then 2
  else if lowerStr sev = "high" then 3
  else if lowerStr sev = "critical" then 4
  else 2

/-- Number of maximal whitespace runs in a character list (`prevWs`
records whether the previous character was whitespace). -/
def wsRuns : List Char → Bool → Nat
  | [], _ => 0
  | c :: cs, prevWs =>
    if c.isWhitespace then (if prevWs then 0 else 1) + wsRuns cs true
    else wsRuns cs false

/-- JavaScript `s.split(/\s+/).length`: one more than the number of
maximal whitespace runs (a leading run contributes an empty piece, as in
JS). -/
def jsSplitWsLen (s : String) : Nat := wsRuns s.data false + 1

/-- The average severity rank of the trailing week (`aiService.js`
lines 405-408), defaulting to 2 on an empty window. -/
def avgSeverityOf (recent : List RecentIssue) : ℚ :=
  if recent.length = 0 then 2
  else (recent.map (fun i => severityRank i.severity)).sum / recent.length

/-- The average combined title+description word count of the trailing
week (`aiService.js` lines 418-422), defaulting to 50 on an empty
window. -/
def avgWordCountOf (recent : List RecentIssue) : ℚ :=
  if recent.length = 0 then 50
  else (recent.map
    (fun i => ((jsSplitWsLen i.title : ℚ) + (jsSplitWsLen i.description : ℚ)))).sum
      / recent.length

/-- The critical-keyword list of `detectAnomalies` (`aiService.js`
line 433). -/
def criticalKeywords : List String :=
  ["outage", "breach", "crash", "down", "urgent", "critical", "emergency",
   "hacked", "ransomware", "data loss"]

/-- The critical keywords found in the lowercased incident text
(`aiService.js` line 435). -/
def foundCriticalKeywords (text : String) : List String :=
  criticalKeywords.filter (fun kw => strIncludes (lowerStr text) kw)

/-- Signal 1 of `detectAnomalies` (lines 411-414): +0.3 when the current
severity rank exceeds the recent average by more than 1.5. -/
def severitySignal (severity : String) (recent : List RecentIssue) : ℚ :=
  if severityRank severity > avgSeverityOf recent + 3/2 then 3/10 else 0

/-- Signal 2 of `detectAnomalies` (lines 424-430): +0.15 above 2.5x the
average word count, +0.1 below 0.2x. -/
def lengthSignal (text : String) (recent : List RecentIssue) : ℚ :=
  if (jsSplitWsLen text : ℚ) > avgWordCountOf recent * (5/2) then 3/20
  else if (jsSplitWsLen text : ℚ) < avgWordCountOf recent * (1/5) then 1/10
  else 0

/-- Signal 3 of `detectAnomalies` (lines 437-440): +0.25 when a critical
keyword occurs and the (raw, case-sensitive) severity is not the string
`critical`. -/
def keywordSignal (text severity : String) : ℚ :=
  if foundCriticalKeywords text ≠ [] ∧ severity ≠ "critical" then 1/4 else 0

/-- Signal 4 of `detectAnomalies` (lines 443-465): +0.3 when the recent
window holds a critical-severity incident and the maximum embedding
similarity to one exceeds 0.8.  The embedding similarity itself is
external-API work and enters as the parameter `critSim`. -/
def simSignal (recent : List RecentIssue) (critSim : ℚ) : ℚ :=
  if recent ≠ [] ∧ (recent.filter (fun i => lowerStr i.severity == "critical")) ≠ [] ∧
      critSim > 4/5 then 3/10 else 0

/-- The pre-clamp anomaly score: the sum of the four signals, built over
`text = title + ". " + description` (`aiService.js` line 393). -/
def anomalyScoreRaw (title description severity : String)
    (recent : List RecentIssue) (critSim : ℚ) : ℚ :=
  let text := title ++ ". " ++ description
  severitySignal severity recent + lengthSignal text recent +
    keywordSignal text severity + simSignal recent critSim

/-- The pre-clamp anomaly score with the critical-keyword signal left
out: the baseline the spec compares against. -/
def anomalyScoreNoKeyword (title description severity : String)
    (recent : List RecentIssue) (critSim : ℚ) : ℚ :=
  let text := title ++ ". " ++ description
  severitySignal severity recent + lengthSignal text recent +
    simSignal recent critSim

/-- The flag string of signal 3 (`aiService.js` line 439). -/
def keywordFlag (text : String) : String :=
  "Critical keywords detected: " ++ ", ".intercalate (foundCriticalKeywords text)

/-- The result of `AIService.detectAnomalies` (`aiService.js`
lines 469-477). -/
structure AnomalyResult where
  anomalyScore : ℚ
  isAnomaly : Bool
  flags : List String
  recommendation : Option String
deriving DecidableEq, Repr

/-- `AIService.detectAnomalies` (`aiService.js` lines 391-478): the four
weighted signals with their flag strings, the score clamped above by 1,
and `isAnomaly` decided on the pre-clamp score.  The `category` input is
destructured but unused by the source. -/
def detectAnomalies (title description category severity : String)
    (recent : List RecentIssue) (critSim : ℚ) : AnomalyResult :=
  let text := title ++ ". " ++ description
  let flags :=
    (if severitySignal severity recent ≠ 0 then
      ["Higher-than-average severity for this period"] else []) ++
    (if (jsSplitWsLen text : ℚ) > avgWordCountOf recent * (5/2) then
      ["Unusually detailed description"]
     else if (jsSplitWsLen text : ℚ) < avgWordCountOf recent * (1/5) then
      ["Unusually brief description"] else []) ++
    (if keywordSignal text severity ≠ 0 then [keywordFlag text] else []) ++
    (if simSignal recent critSim ≠ 0 then
      ["Similar to a recent critical incident"] else [])
  let score := anomalyScoreRaw title description severity recent critSim
  { anomalyScore := min score 1,
    isAnomaly := decide (score > 9/20),
    flags := flags,
    recommendation :=
      if score > 9/20 then
        some "This incident shows anomalous characteristics. Consider escalating to a senior responder."
      else none }

/-- A concrete incident used to instantiate witnesses and
counterexamples: reported by `alice`, unassigned, with the creation
history entry. -/
def sampleIncident (status : String) : Incident :=
  { title := "Printer jam", description := "The office printer is jammed",
    category := "IT", severity := "Low",
    status := status, reportedBy := "alice", reporterName := some "Alice",
    assignedTo := none, assigneeName := none, assignedTeam := none,
    statusHistory := [{ fromStatus := none, toStatus := "Open",
                        changedBy := "alice", changedByName := some "Alice",
                        note := some "Created" }],
    activity := [{ type := "created", message := "Incident created",
                   byUser := "alice", byName := some "Alice" }],
    watchers := [] }

/-- The creation `statusHistory` entry of `createIncident`. -/
def creationEntry (userId : String) (reporterName : Option String) : HistoryEntry :=
  { fromStatus := none, toStatus := "Open", changedBy := userId,
    changedByName := reporterName, note := some "Created" }

/-- The `statusHistory` entry appended by an accepted status change. -/
def changeEntry (userId : String) (userName : Option String)
    (fromStatus toStatus : String) (note : Option String) : HistoryEntry :=
  { fromStatus := some fromStatus, toStatus := toStatus, changedBy := userId,
    changedByName := userName, note := note }

/-! Helper lemmas shared by the claim theorems. -/

theorem createIncident_fixed_fields (userId : String) (rn : Option String)
    (t d : String) (c sv : Option String) (ai : TriageData)
    (rules : List RoutingRule) (users : List (String × String)) :
    (createIncident userId rn t d c sv ai rules users).status = "Open" ∧
    (createIncident userId rn t d c sv ai rules users).category =
      normalizeCategory (jsOrStr ai.predictedCategory c) ∧
    (createIncident userId rn t d c sv ai rules users).severity =
      normalizeSeverity (jsOrStr ai.predictedSeverity sv) ∧
    (createIncident userId rn t d c sv ai rules users).statusHistory =
      [creationEntry userId rn] := by
  unfold createIncident creationEntry
  rcases hfr : findRule rules (normalizeCategory (jsOrStr ai.predictedCategory c)) with _ | rule
  · rcases hat : ai.assignedTeam with _ | tm
    · simp [hfr, hat]
    · by_cases ht : tm = "" <;> simp [hfr, hat, ht]
  · rcases rat : rule.assignedTo with _ | uid <;> simp [hfr, rat]

theorem createIncident_team_fields (userId : String) (rn : Option String)
    (t d : String) (c sv : Option String) (ai : TriageData)
    (rules : List RoutingRule) (users : List (String × String)) :
    (createIncident userId rn t d c sv ai rules users).assignedTeam =
      (match findRule rules (normalizeCategory (jsOrStr ai.predictedCategory c)) with
       | some rule => some rule.assignedTeam
       | none =>
         match ai.assignedTeam with
         | some tm => if tm = "" then none else some tm
         | none => none) ∧
    (createIncident userId rn t d c sv ai rules users).assignedTo =
      (match findRule rules (normalizeCategory (jsOrStr ai.predictedCategory c)) with
       | some rule => rule.assignedTo
       | none => none) ∧
    (createIncident userId rn t d c sv ai rules users).assigneeName =
      (match findRule rules (normalizeCategory (jsOrStr ai.predictedCategory c)) with
       | some rule =>
         (match rule.assignedTo with
          | some uid => lookupName users uid
          | none => none)
       | none => none) := by
  unfold createIncident
  rcases hfr : findRule rules (normalizeCategory (jsOrStr ai.predictedCategory c)) with _ | rule
  · rcases hat : ai.assignedTeam with _ | tm
    · simp [hfr, hat]
    · by_cases ht : tm = "" <;> simp [hfr, hat, ht]
  · rcases rat : rule.assignedTo with _ | uid <;> simp [hfr, rat]

theorem patchStatus_ok_elim {u : String} {un : Option String} {s : String}
    {note : Option String} {inc inc' : Incident}
    (h : patchStatus u un s note inc = .ok inc') :
    inc' = applyStatusChange u un s note inc := by
  unfold patchStatus at h
  split at h
  · split at h
    · exact absurd h (by simp)
    · split at h
      · exact (Except.ok.inj h).symm
      · exact absurd h (by simp)
  · exact (Except.ok.inj h).symm

/-- C1: a `PATCH /incidents/:id/status` request on an existing incident
is accepted iff its requested status equals the current one or the pair
(current, requested) is Open→Investigating or Investigating→Resolved;
every other pair — including any transition out of Resolved and the
Open→Resolved skip — is rejected as HTTP 400 with the message body
`Invalid status transition`. -/
theorem status_transition_table (u : String) (un : Option String)
    (s : String) (note : Option String) (inc : Incident) :
    ((∃ inc', patchStatus u un s note inc = .ok inc') ↔ acceptedPair inc.status s) ∧
      (¬ acceptedPair inc.status s →
        patchStatus u un s note inc = .error (400, "Invalid status transition")) := by
  unfold patchStatus validNext acceptedPair
  by_cases h0 : inc.status = s
  · simp [h0]
  · have h0' : ¬(s = inc.status) := fun h => h0 h.symm
    by_cases hO : inc.status = "Open"
    · by_cases hI : s = "Investigating" <;> simp_all
    · by_cases hI : inc.status = "Investigating"
      · by_cases hR : s = "Resolved" <;> simp_all
      · by_cases hR : inc.status = "Resolved" <;> simp_all

/-- C1 witness: the transition Resolved→Open is not in the table and is
rejected with HTTP 400 and the `Invalid status transition` message. -/
theorem status_transition_table_witness :
    patchStatus "bob" none "Open" none (sampleIncident "Resolved") =
      .error (400, "Invalid status transition") :=
  (status_transition_table "bob" none "Open" none (sampleIncident "Resolved")).2
    (by decide)

/-- C2: the incident constructed by `POST /incidents` carries exactly the
synthetic creation history entry (fromStatus null, toStatus Open) and
satisfies the invariant that the final `statusHistory` entry's `toStatus`
equals the current status; and every accepted status change appends
exactly one history entry whose `toStatus` is the incident's new status,
preserving the invariant and the first entry. -/
theorem statusHistory_creation_and_append :
    (∀ (userId : String) (rn : Option String) (t d : String)
        (c sv : Option String) (ai : TriageData) (rules : List RoutingRule)
        (users : List (String × String)),
      (createIncident userId rn t d c sv ai rules users).statusHistory =
        [creationEntry userId rn] ∧
      (creationEntry userId rn).fromStatus = none ∧
      (creationEntry userId rn).toStatus = "Open" ∧
      lastToStatus (createIncident userId rn t d c sv ai rules users) =
        some (createIncident userId rn t d c sv ai rules users).status) ∧
    (∀ (inc : Incident) (u : String) (un : Option String) (s : String)
        (note : Option String) (inc' : Incident),
      patchStatus u un s note inc = .ok inc' →
        inc'.statusHistory = inc.statusHistory ++ [changeEntry u un inc.status s note] ∧
        inc'.status = s ∧
        lastToStatus inc' = some inc'.status ∧
        (inc.statusHistory ≠ [] →
          inc'.statusHistory.head? = inc.statusHistory.head?)) := by
  constructor
  · intro userId rn t d c sv ai rules users
    obtain ⟨hst, -, -, hsh⟩ :=
      createIncident_fixed_fields userId rn t d c sv ai rules users
    refine ⟨hsh, rfl, rfl, ?_⟩
    rw [lastToStatus, hsh, hst]
    rfl
  · intro inc u un s note inc' h
    have he := patchStatus_ok_elim h
    subst he
    refine ⟨rfl, rfl, ?_, ?_⟩
    · rw [lastToStatus]
      simp [applyStatusChange, List.getLast?_concat, changeEntry]
    · intro hne
      rcases hhist : inc.statusHistory with _ | ⟨e, rest⟩
      · exact absurd hhist hne
      · simp [applyStatusChange, hhist]

/-- C2 witness: accepting Open→Investigating on the sample incident
appends exactly the corresponding history entry and re-establishes the
invariant. -/
theorem statusHistory_creation_and_append_witness :
    (applyStatusChange "bob" none "Investigating" none
        (sampleIncident "Open")).statusHistory =
      (sampleIncident "Open").statusHistory ++
        [changeEntry "bob" none "Open" "Investigating" none] ∧
    lastToStatus (applyStatusChange "bob" none "Investigating" none
        (sampleIncident "Open")) =
      some (applyStatusChange "bob" none "Investigating" none
        (sampleIncident "Open")).status := by
  obtain ⟨h1, -, h3, -⟩ :=
    statusHistory_creation_and_append.2 (sampleIncident "Open") "bob" none
      "Investigating" none
      (applyStatusChange "bob" none "Investigating" none (sampleIncident "Open"))
      rfl
  exact ⟨h1, h3⟩

/-- C9 counterexample: a self-transition request (Open→Open) is accepted
but is not a no-op — it appends a `statusHistory` entry (the history
grows from 1 to 2 entries) and an activity entry, contradicting the
claim that the incident is left unchanged. -/
theorem self_transition_noop_counterexample :
    ((patchStatus "bob" none "Open" none (sampleIncident "Open")).toOption.map
        (fun i => i.statusHistory.length)) = some 2 ∧
    ((patchStatus "bob" none "Open" none (sampleIncident "Open")).toOption.map
        (fun i => i.activity.length)) = some 2 ∧
    (sampleIncident "Open").statusHistory.length = 1 ∧
    (sampleIncident "Open").activity.length = 1 ∧
    (sampleIncident "Open").status = "Open" := by decide

/-- C9 amended: a status-change request whose requested status equals the
current status is accepted without consulting the transition table (for
every current status string, including Resolved), and it leaves the
status value unchanged, but it appends one `statusHistory` entry with
`fromStatus = toStatus =` the current status and one activity entry. -/
theorem self_transition_accepted_but_appends (inc : Incident) (u : String)
    (un : Option String) (note : Option String) :
    ∃ inc', patchStatus u un inc.status note inc = .ok inc' ∧
      inc'.status = inc.status ∧
      inc'.statusHistory = inc.statusHistory ++
        [changeEntry u un inc.status inc.status note] ∧
      inc'.activity.length = inc.activity.length + 1 ∧
      inc'.watchers = inc.watchers ∧ inc'.assignedTo = inc.assignedTo := by
  refine ⟨applyStatusChange u un inc.status note inc, ?_, rfl, rfl, ?_, rfl, rfl⟩
  · unfold patchStatus
    simp
  · simp [applyStatusChange]

/-- C8 counterexample: a repeated watch call by the same user does not
leave the incident unchanged — the watcher set stays deduplicated, but a
second activity entry is appended (2 watch entries on top of the creation
entry), so the claim's "appends an activity entry on first addition only"
is false. -/
theorem watch_repeat_counterexample :
    watchIncident "w1" (some "Wendy")
        (watchIncident "w1" (some "Wendy") (sampleIncident "Open")) ≠
      watchIncident "w1" (some "Wendy") (sampleIncident "Open") ∧
    (watchIncident "w1" (some "Wendy")
        (watchIncident "w1" (some "Wendy") (sampleIncident "Open"))).watchers = ["w1"] ∧
    (watchIncident "w1" (some "Wendy")
        (watchIncident "w1" (some "Wendy") (sampleIncident "Open"))).activity.length = 3 ∧
    (watchIncident "w1" (some "Wendy") (sampleIncident "Open")).activity.length = 2 := by
  decide

/-- C8 amended: watching adds the caller to the watcher set only when not
already present (so repeated watch calls never duplicate watcher
entries), but an activity-log entry is appended on every watch call, so a
repeated call leaves the watcher set — not the whole incident —
unchanged. -/
theorem watch_idempotent_watchers_not_activity (inc : Incident) (u : String)
    (un : Option String) :
    (watchIncident u un inc).watchers =
      (if u ∈ inc.watchers then inc.watchers else inc.watchers ++ [u]) ∧
    u ∈ (watchIncident u un inc).watchers ∧
    (watchIncident u un (watchIncident u un inc)).watchers =
      (watchIncident u un inc).watchers ∧
    (watchIncident u un inc).activity = inc.activity ++ [watchActivity u un] ∧
    (watchIncident u un (watchIncident u un inc)).activity =
      inc.activity ++ [watchActivity u un, watchActivity u un] := by
  by_cases h : u ∈ inc.watchers <;>
    simp [watchIncident, h]

/-- C4 counterexample: for an incident with no assignee, a caller who is
neither admin, nor the reporter, nor an assignee receives the incident
with HTTP 200, not the 403 the claim requires. -/
theorem get_incident_unassigned_counterexample :
    getIncidentCode "employee" "mallory" (sampleIncident "Open") = 200 ∧
    "employee" ≠ "admin" ∧
    (sampleIncident "Open").reportedBy ≠ "mallory" ∧
    (sampleIncident "Open").assignedTo = none := by decide

/-- C4 amended: `GET /incidents/:id` returns 403 exactly when the caller
is not an admin, not the reporter, and the incident has an assignee
different from the caller; otherwise — including every incident with no
assignee, regardless of caller — it returns the incident with 200. -/
theorem get_incident_access (role userId : String) (inc : Incident) :
    (getIncidentCode role userId inc = 403 ↔
      (role ≠ "admin" ∧ inc.reportedBy ≠ userId ∧
        ∃ a, inc.assignedTo = some a ∧ a ≠ userId)) ∧
    (getIncidentCode role userId inc = 403 ∨ getIncidentCode role userId inc = 200) ∧
    (inc.assignedTo = none → getIncidentCode role userId inc = 200) := by
  unfold getIncidentCode getIncidentForbidden
  rcases h : inc.assignedTo with _ | a
  · simp
  · by_cases h1 : role = "admin" <;> by_cases h2 : inc.reportedBy = userId <;>
      by_cases h3 : a = userId <;> simp_all

/-- C3 counterexample: the creation-time routing lookup ignores the
`active` flag — with a single inactive IT rule and no AI fallback team,
the claim requires the incident to stay unassigned, but the code assigns
the inactive rule's team. -/
theorem routing_active_flag_counterexample :
    (createIncident "u1" none "Printer" "broken" (some "IT") (some "Low")
        emptyTriage
        [{ category := "IT", assignedTeam := "Night Shift", assignedTo := none,
           priority := 0, active := false }] []).assignedTeam =
      some "Night Shift" ∧
    emptyTriage.assignedTeam = none := by decide

/-- C3 amended: the routing resolver selects the first stored rule whose
category matches the incident's (normalized) category, regardless of the
`active` flag; on a match `assignedTeam` comes from the rule and, when
the rule names a target user, `assignedTo` is that user and
`assigneeName` its looked-up name (both stay empty when the rule names
none); with no matching rule the team falls back to the AI-supplied team
when present and the incident otherwise stays unassigned (team, assignee
and assignee name all empty); in particular a single rule
{category IT, team "IT Support", active true} routes an IT incident to
"IT Support". -/
theorem routing_first_match_ignores_active :
    (∀ (rules : List RoutingRule) (cat : String) (b : Bool),
      findRule (rules.map (fun r => { r with active := b })) cat =
        (findRule rules cat).map (fun r => { r with active := b })) ∧
    (∀ (userId : String) (rn : Option String) (t d : String)
        (c sv : Option String) (ai : TriageData) (rules : List RoutingRule)
        (users : List (String × String)) (rule : RoutingRule),
      findRule rules (normalizeCategory (jsOrStr ai.predictedCategory c)) = some rule →
        (createIncident userId rn t d c sv ai rules users).assignedTeam =
          some rule.assignedTeam ∧
        (createIncident userId rn t d c sv ai rules users).assignedTo =
          rule.assignedTo ∧
        (createIncident userId rn t d c sv ai rules users).assigneeName =
          (match rule.assignedTo with
           | some uid => lookupName users uid
           | none => none) ∧
        rule.category = normalizeCategory (jsOrStr ai.predictedCategory c)) ∧
    (∀ (userId : String) (rn : Option String) (t d : String)
        (c sv : Option String) (ai : TriageData) (rules : List RoutingRule)
        (users : List (String × String)),
      findRule rules (normalizeCategory (jsOrStr ai.predictedCategory c)) = none →
        (createIncident userId rn t d c sv ai rules users).assignedTeam =
          (match ai.assignedTeam with
           | some tm => if tm = "" then none else some tm
           | none => none) ∧
        (createIncident userId rn t d c sv ai rules users).assignedTo = none ∧
        (createIncident userId rn t d c sv ai rules users).assigneeName = none) ∧
    (createIncident "u1" none "Printer" "broken" (some "IT") (some "Low")
        emptyTriage
        [{ category := "IT", assignedTeam := "IT Support", assignedTo := none,
           priority := 0, active := true }] []).assignedTeam =
      some "IT Support" := by
  refine ⟨?_, ?_, ?_, by decide⟩
  · intro rules cat b
    induction rules with
    | nil => simp [findRule]
    | cons r rs ih =>
      simp only [findRule, List.find?_map] at ih
      cases hbc : r.category == cat <;>
        simp [findRule, List.find?, List.find?_map, Function.comp, hbc, ih]
  · intro userId rn t d c sv ai rules users rule hfr
    obtain ⟨hteam, hto, hname⟩ :=
      createIncident_team_fields userId rn t d c sv ai rules users
    rw [hfr] at hteam hto hname
    refine ⟨hteam, hto, hname, ?_⟩
    have := List.find?_some hfr
    simpa using this
  · intro userId rn t d c sv ai rules users hfr
    obtain ⟨hteam, hto, hname⟩ :=
      createIncident_team_fields userId rn t d c sv ai rules users
    rw [hfr] at hteam hto hname
    exact ⟨hteam, hto, hname⟩

/-- C3 witness: the rule-match branch of the amended theorem at a
concrete rule set — one active IT rule naming a user whose stored name is
`Rita` — sets team, assignee and the denormalized assignee name. -/
theorem routing_first_match_ignores_active_witness :
    (createIncident "u1" none "VPN down" "cannot connect" (some "IT") (some "High")
        emptyTriage
        [{ category := "IT", assignedTeam := "IT Support",
           assignedTo := some "resp-7", priority := 1, active := true }]
        [("resp-7", "Rita")]).assignedTeam = some "IT Support" ∧
    (createIncident "u1" none "VPN down" "cannot connect" (some "IT") (some "High")
        emptyTriage
        [{ category := "IT", assignedTeam := "IT Support",
           assignedTo := some "resp-7", priority := 1, active := true }]
        [("resp-7", "Rita")]).assignedTo = some "resp-7" ∧
    (createIncident "u1" none "VPN down" "cannot connect" (some "IT") (some "High")
        emptyTriage
        [{ category := "IT", assignedTeam := "IT Support",
           assignedTo := some "resp-7", priority := 1, active := true }]
        [("resp-7", "Rita")]).assigneeName = some "Rita" := by
  obtain ⟨h1, h2, h3, -⟩ :=
    routing_first_match_ignores_active.2.1 "u1" none "VPN down" "cannot connect"
      (some "IT") (some "High") emptyTriage
      [{ category := "IT", assignedTeam := "IT Support",
         assignedTo := some "resp-7", priority := 1, active := true }]
      [("resp-7", "Rita")]
      { category := "IT", assignedTeam := "IT Support",
        assignedTo := some "resp-7", priority := 1, active := true }
      (by decide)
  refine ⟨h1, h2, ?_⟩
  rw [h3]
  decide

/-- C5 counterexample: for the scenario incident created as an employee
with no routing rule and the external AI service unreachable (both
classifiers on their keyword fallbacks), the response's incident has
`assignedTeam = "Development"` — not undefined — because the fallback
triage routes the predicted category `application` to the `Development`
team and the handler applies it; and `aiInsights.triage.aiPowered` is
`true` — not false — because `predictTriage` hard-codes
`aiPowered: true` even on the fallback path. -/
theorem create_scenario_counterexample :
    (postIncident "emp-1" (some "Evan") "Login page crashes"
        "Clicking submit throws a 500 error repeatedly" (some "IT") (some "High")
        (predictTriageFallback "Login page crashes"
          "Clicking submit throws a 500 error repeatedly") [] []).incident.assignedTeam =
      some "Development" ∧
    (postIncident "emp-1" (some "Evan") "Login page crashes"
        "Clicking submit throws a 500 error repeatedly" (some "IT") (some "High")
        (predictTriageFallback "Login page crashes"
          "Clicking submit throws a 500 error repeatedly") [] []).incident.assignedTeam ≠
      none ∧
    (postIncident "emp-1" (some "Evan") "Login page crashes"
        "Clicking submit throws a 500 error repeatedly" (some "IT") (some "High")
        (predictTriageFallback "Login page crashes"
          "Clicking submit throws a 500 error repeatedly") [] []).triage.aiPowered ≠
      false := by decide

/-- C5 amended: creating the scenario incident as an employee with no
routing rule and the external AI service unreachable returns HTTP 201
with `incident.status = "Open"` and `incident.severity = "High"`, but
`incident.assignedTeam = "Development"` (the AI fallback team for the
predicted category `application`) and `aiInsights.triage.aiPowered =
true`. -/
theorem create_scenario_amended :
    (postIncident "emp-1" (some "Evan") "Login page crashes"
        "Clicking submit throws a 500 error repeatedly" (some "IT") (some "High")
        (predictTriageFallback "Login page crashes"
          "Clicking submit throws a 500 error repeatedly") [] []).statusCode = 201 ∧
    (postIncident "emp-1" (some "Evan") "Login page crashes"
        "Clicking submit throws a 500 error repeatedly" (some "IT") (some "High")
        (predictTriageFallback "Login page crashes"
          "Clicking submit throws a 500 error repeatedly") [] []).incident.status =
      "Open" ∧
    (postIncident "emp-1" (some "Evan") "Login page crashes"
        "Clicking submit throws a 500 error repeatedly" (some "IT") (some "High")
        (predictTriageFallback "Login page crashes"
          "Clicking submit throws a 500 error repeatedly") [] []).incident.severity =
      "High" ∧
    (postIncident "emp-1" (some "Evan") "Login page crashes"
        "Clicking submit throws a 500 error repeatedly" (some "IT") (some "High")
        (predictTriageFallback "Login page crashes"
          "Clicking submit throws a 500 error repeatedly") [] []).incident.assignedTeam =
      some "Development" ∧
    (postIncident "emp-1" (some "Evan") "Login page crashes"
        "Clicking submit throws a 500 error repeatedly" (some "IT") (some "High")
        (predictTriageFallback "Login page crashes"
          "Clicking submit throws a 500 error repeatedly") [] []).triage.aiPowered =
      true := by decide

/-- C10: every incident persisted through `POST /incidents` has category
in {IT, HR, Facility} and severity in {Low, Medium, High, Critical}
regardless of the user-supplied or AI-predicted values; in particular
`normalizeCategory` sends every AI category label (and a missing value)
to `IT`, and `normalizeSeverity` capitalizes its input and sends
out-of-enum or missing values to `Low`. -/
theorem category_severity_enum_invariant :
    (∀ (userId : String) (rn : Option String) (t d : String)
        (c sv : Option String) (ai : TriageData) (rules : List RoutingRule)
        (users : List (String × String)),
      (createIncident userId rn t d c sv ai rules users).category ∈ validCategories ∧
      (createIncident userId rn t d c sv ai rules users).severity ∈ validSeverities) ∧
    (∀ c : Option String, normalizeCategory c ∈ validCategories) ∧
    (∀ sv : Option String, normalizeSeverity sv ∈ validSeverities) ∧
    normalizeCategory (some "infrastructure") = "IT" ∧
    normalizeCategory (some "application") = "IT" ∧
    normalizeCategory (some "security") = "IT" ∧
    normalizeCategory (some "database") = "IT" ∧
    normalizeCategory (some "other") = "IT" ∧
    normalizeCategory none = "IT" ∧
    normalizeSeverity none = "Low" ∧
    normalizeSeverity (some "") = "Low" ∧
    normalizeSeverity (some "high") = "High" ∧
    normalizeSeverity (some "CRITICAL") = "Critical" ∧
    normalizeSeverity (some "urgent") = "Low" := by
  have hcat : ∀ c : Option String, normalizeCategory c ∈ validCategories := by
    intro c
    rcases c with _ | s
    · decide
    · simp only [normalizeCategory]
      split_ifs with h1 h2
      · decide
      · exact h2
      · decide
  have hsev : ∀ sv : Option String, normalizeSeverity sv ∈ validSeverities := by
    intro sv
    rcases sv with _ | s
    · decide
    · simp only [normalizeSeverity]
      split_ifs with h1 h2
      · decide
      · exact h2
      · decide
  refine ⟨?_, hcat, hsev, by decide, by decide, by decide, by decide, by decide,
    by decide, by decide, by decide, by decide, by decide, by decide⟩
  intro userId rn t d c sv ai rules users
  obtain ⟨-, hc, hs, -⟩ := createIncident_fixed_fields userId rn t d c sv ai rules users
  rw [hc, hs]
  exact ⟨hcat _, hsev _⟩

theorem mem_insertDesc {x c : DupCandidate} {l : List DupCandidate} :
    x ∈ insertDesc c l ↔ x = c ∨ x ∈ l := by
  induction l with
  | nil => simp [insertDesc]
  | cons d ds ih =>
    by_cases h : d.similarity < c.similarity <;>
      simp [insertDesc, h, ih] <;> tauto

theorem mem_sortDesc {x : DupCandidate} {l : List DupCandidate} :
    x ∈ sortDesc l ↔ x ∈ l := by
  induction l with
  | nil => simp [sortDesc]
  | cons c cs ih => simp [sortDesc, mem_insertDesc, ih]

theorem length_insertDesc (c : DupCandidate) (l : List DupCandidate) :
    (insertDesc c l).length = l.length + 1 := by
  induction l with
  | nil => rfl
  | cons d ds ih =>
    by_cases h : d.similarity < c.similarity <;> simp [insertDesc, h, ih]

theorem length_sortDesc (l : List DupCandidate) : (sortDesc l).length = l.length := by
  induction l with
  | nil => rfl
  | cons c cs ih => simp [sortDesc, length_insertDesc, ih]

theorem sortedDesc_insertDesc {c : DupCandidate} {l : List DupCandidate}
    (h : SortedDesc l) : SortedDesc (insertDesc c l) := by
  induction l with
  | nil => simp [insertDesc, SortedDesc]
  | cons d ds ih =>
    obtain ⟨hd, hds⟩ := List.pairwise_cons.mp h
    by_cases hlt : d.similarity < c.similarity
    · rw [insertDesc, if_pos hlt]
      refine List.Pairwise.cons ?_ h
      intro b hb
      rcases List.mem_cons.mp hb with rfl | hb
      · exact le_of_lt hlt
      · exact (hd b hb).trans (le_of_lt hlt)
    · rw [insertDesc, if_neg hlt]
      refine List.Pairwise.cons ?_ (ih hds)
      intro b hb
      rcases mem_insertDesc.mp hb with rfl | hb
      · exact le_of_not_lt hlt
      · exact hd b hb

theorem sortedDesc_sortDesc (l : List DupCandidate) : SortedDesc (sortDesc l) := by
  induction l with
  | nil => simp [sortDesc, SortedDesc]
  | cons c cs ih => exact sortedDesc_insertDesc ih

theorem roundSim_ge_threshold {q : ℚ} (h : 3/4 ≤ q) : 3/4 ≤ roundSim q := by
  unfold roundSim
  have h1 : (75 : ℤ) ≤ ⌊q * 100 + 1/2⌋ := by
    apply Int.le_floor.mpr
    push_cast
    linarith
  have h2 : (75 : ℚ) ≤ (⌊q * 100 + 1/2⌋ : ℚ) := by exact_mod_cast h1
  linarith

/-- C6 counterexample: with four open incidents at similarities
0.8, 0.9, 0.85 and 0.76 — all at or above the 0.75 threshold — the
result keeps only the top 3, so the qualifying incident `d` (0.76) does
not appear, contradicting "every open incident whose similarity is
≥ 0.75 appears in the result set". -/
theorem find_duplicates_top3_counterexample :
    ((3 : ℚ)/4 ≤ 19/25) ∧
    (∀ d ∈ (findDuplicates [("a", 4/5), ("b", 9/10), ("c", 17/20), ("d", 19/25)]
        (3/4)).duplicates, d.issueId ≠ "d") := by
  constructor
  · norm_num
  · intro d hd hEq
    have hm : (findDuplicates [("a", 4/5), ("b", 9/10), ("c", 17/20), ("d", 19/25)]
        (3/4)).duplicates.map (·.issueId) = ["b", "c", "a"] := by
      norm_num [findDuplicates, sortDesc, insertDesc, roundSim, List.filter,
        List.map, List.take]
    have hmem : d.issueId ∈ ["b", "c", "a"] := hm ▸ List.mem_map_of_mem _ hd
    rw [hEq] at hmem
    simp at hmem

/-- C6 amended: the duplicate check over the open/investigating incidents
returns at most 3 matches; every returned match stems from a candidate at
or above the 0.75 threshold and carries its rounded similarity (itself
still ≥ 0.75); the result is sorted descending by similarity;
`hasDuplicates` and a non-null recommendation hold iff at least one match
qualifies; and whenever at most 3 candidates qualify, every qualifying
candidate appears in the result. -/
theorem find_duplicates_amended (candidates : List (String × ℚ)) :
    (findDuplicates candidates (3/4)).duplicates.length ≤ 3 ∧
    (∀ d ∈ (findDuplicates candidates (3/4)).duplicates,
      3/4 ≤ d.similarity ∧
      ∃ c ∈ candidates, c.1 = d.issueId ∧ 3/4 ≤ c.2 ∧ d.similarity = roundSim c.2) ∧
    SortedDesc (findDuplicates candidates (3/4)).duplicates ∧
    ((findDuplicates candidates (3/4)).hasDuplicates = true ↔
      (findDuplicates candidates (3/4)).duplicates ≠ []) ∧
    ((findDuplicates candidates (3/4)).recommendation ≠ none ↔
      (findDuplicates candidates (3/4)).duplicates ≠ []) ∧
    ((candidates.filter (fun c => (3 : ℚ)/4 ≤ c.2)).length ≤ 3 →
      ∀ c ∈ candidates, (3 : ℚ)/4 ≤ c.2 →
        ∃ d ∈ (findDuplicates candidates (3/4)).duplicates,
          d.issueId = c.1 ∧ d.similarity = roundSim c.2) := by
  have hdup : (findDuplicates candidates (3/4)).duplicates =
      (sortDesc ((candidates.filter (fun c => (3 : ℚ)/4 ≤ c.2)).map
        (fun c => ({ issueId := c.1, similarity := roundSim c.2 } : DupCandidate)))).take 3 :=
    rfl
  refine ⟨?_, ?_, ?_, ?_, ?_, ?_⟩
  · rw [hdup]
    exact List.length_take_le 3 _
  · intro d hd
    rw [hdup] at hd
    have hd2 := mem_sortDesc.mp (List.take_subset 3 _ hd)
    obtain ⟨c, hcf, hcd⟩ := List.mem_map.mp hd2
    obtain ⟨hcm, hcth⟩ := List.mem_filter.mp hcf
    have hth : (3 : ℚ)/4 ≤ c.2 := of_decide_eq_true hcth
    refine ⟨?_, c, hcm, ?_, hth, ?_⟩
    · rw [← hcd]
      exact roundSim_ge_threshold hth
    · rw [← hcd]
    · rw [← hcd]
  · rw [hdup]
    exact List.Pairwise.sublist (List.take_sublist 3 _) (sortedDesc_sortDesc _)
  · exact ⟨fun h => of_decide_eq_true h, fun h => decide_eq_true h⟩
  · have hrec : (findDuplicates candidates (3/4)).recommendation =
        (if (findDuplicates candidates (3/4)).duplicates ≠ [] then
          some ("AI found " ++ toString (findDuplicates candidates (3/4)).duplicates.length ++
            " similar issue(s). Please review before submitting.")
        else none) := rfl
    rw [hrec]
    by_cases h : (findDuplicates candidates (3/4)).duplicates ≠ [] <;> simp [h]
  · intro hlen c hcm hcth
    refine ⟨{ issueId := c.1, similarity := roundSim c.2 }, ?_, rfl, rfl⟩
    rw [hdup, List.take_of_length_le]
    · exact mem_sortDesc.mpr (List.mem_map_of_mem _
        (List.mem_filter.mpr ⟨hcm, decide_eq_true hcth⟩))
    · rw [length_sortDesc, List.length_map]
      exact hlen

/-- C6 witness: a single qualifying candidate at similarity 0.8 appears
in the result with its rounded similarity. -/
theorem find_duplicates_amended_witness :
    ∃ d ∈ (findDuplicates [("a", 4/5)] (3/4)).duplicates,
      d.issueId = "a" ∧ d.similarity = roundSim (4/5) := by
  obtain ⟨d, hd, h1, h2⟩ :=
    (find_duplicates_amended [("a", 4/5)]).2.2.2.2.2
      (by norm_num [List.filter]) ("a", 4/5) (by simp) (by norm_num)
  exact ⟨d, hd, h1, h2⟩

theorem severitySignal_nonneg (s : String) (r : List RecentIssue) :
    0 ≤ severitySignal s r := by
  unfold severitySignal
  split_ifs <;> norm_num

theorem lengthSignal_nonneg (t : String) (r : List RecentIssue) :
    0 ≤ lengthSignal t r := by
  unfold lengthSignal
  split_ifs <;> norm_num

theorem keywordSignal_nonneg (t s : String) : 0 ≤ keywordSignal t s := by
  unfold keywordSignal
  split_ifs <;> norm_num

theorem simSignal_nonneg (r : List RecentIssue) (q : ℚ) : 0 ≤ simSignal r q := by
  unfold simSignal
  split_ifs <;> norm_num

/-- C7: when the incident text contains a critical keyword and the
severity string is not `critical`, the critical-keyword flag is included
in the anomaly flags and the pre-clamp anomaly score is exactly 0.25
higher than the score computed without that signal; the returned score is
clamped to [0,1] and `isAnomaly` holds exactly when the pre-clamp score
exceeds 0.45. -/
theorem anomaly_keyword_signal (title description category severity : String)
    (recent : List RecentIssue) (critSim : ℚ)
    (hkw : foundCriticalKeywords (title ++ ". " ++ description) ≠ [])
    (hsev : severity ≠ "critical") :
    keywordFlag (title ++ ". " ++ description) ∈
      (detectAnomalies title description category severity recent critSim).flags ∧
    anomalyScoreRaw title description severity recent critSim =
      anomalyScoreNoKeyword title description severity recent critSim + 1/4 ∧
    0 ≤ (detectAnomalies title description category severity recent critSim).anomalyScore ∧
    (detectAnomalies title description category severity recent critSim).anomalyScore ≤ 1 ∧
    ((detectAnomalies title description category severity recent critSim).isAnomaly = true ↔
      anomalyScoreRaw title description severity recent critSim > 9/20) := by
  have hks : keywordSignal (title ++ ". " ++ description) severity = 1/4 := by
    unfold keywordSignal
    rw [if_pos ⟨hkw, hsev⟩]
  have hraw : 0 ≤ anomalyScoreRaw title description severity recent critSim := by
    simp only [anomalyScoreRaw]
    have h1 := severitySignal_nonneg severity recent
    have h2 := lengthSignal_nonneg (title ++ ". " ++ description) recent
    have h3 := keywordSignal_nonneg (title ++ ". " ++ description) severity
    have h4 := simSignal_nonneg recent critSim
    linarith
  refine ⟨?_, ?_, ?_, ?_, ?_⟩
  · simp [detectAnomalies, hks, List.mem_append]
  · simp only [anomalyScoreRaw, anomalyScoreNoKeyword, hks]
    ring
  · exact le_min hraw (by norm_num)
  · exact min_le_right _ _
  · exact decide_eq_true_iff

/-- C7 witness: severity `Low` with the keywords `outage` and `down` in
the text triggers the flag and the exact +0.25 increment. -/
theorem anomaly_keyword_signal_witness :
    keywordFlag ("Server outage" ++ ". " ++ "Everything is down") ∈
      (detectAnomalies "Server outage" "Everything is down" "IT" "Low" [] 0).flags ∧
    anomalyScoreRaw "Server outage" "Everything is down" "Low" [] 0 =
      anomalyScoreNoKeyword "Server outage" "Everything is down" "Low" [] 0 + 1/4 := by
  have h := anomaly_keyword_signal "Server outage" "Everything is down" "IT" "Low"
    [] 0 (by decide) (by decide)
  exact ⟨h.1, h.2.1⟩

end Reporting
